import Mathlib

/-!
Shallow embedding of the identifier-resolution and update-reconciliation
layer of a Taiga MCP server, covering:

* the tag normalizer (`normalize_tags` field validators in
  `app/models/userstory.py` and `app/models/task.py`),
* user-story identifier resolution (`resolve_user_story_id` and
  `resolve_project_id` in `app/server.py`),
* the update reconcilers of the `updateUserStory` and `updateTask` tool
  branches of `call_tool` in `app/server.py`, plus the status lookup of the
  `createUserStory` branch,
* the serialization step of `TaskService.update_task` / `create_task`
  (`model_dump(exclude_none=True)` in `app/services/task_service.py`).

Python dynamic values are embedded as an explicit inductive `PyVal`;
machine floats are modelled as exact decimals (an integer mantissa with a
power-of-ten scale), which is lossless here because the layer only parses
plain decimal literals and forwards them; the HTTP services that
live outside the embedded modules are passed in as explicit environments
(project and story lookup functions, project-scoped status and member
lists), matching the specification's view of them as opaque collaborators.
-/

/-- Python values as they can appear in the tag wire format handled by the
`normalize_tags` validators: strings, integers, `None`, and (nested) lists. -/
inductive PyVal where
  | str (s : String)
  | int (n : Int)
  | noneV
  | list (xs : List PyVal)

mutual

/-- Python `str()` conversion on the embedded values: a string converts to
itself, an int to its decimal form, `None` to `"None"`, and a list to its
bracketed form whose elements are shown with `repr`. -/
def pystr : PyVal → String
  | .str s => s
  | .int n => toString n
  | .noneV => "None"
  | .list xs => "[" ++ String.intercalate ", " (pyreprList xs) ++ "]"

/-- Python `repr()` on the embedded values (strings gain single quotes). -/
def pyrepr : PyVal → String
  | .str s => "\x27" ++ s ++ "\x27"
  | .int n => toString n
  | .noneV => "None"
  | .list xs => "[" ++ String.intercalate ", " (pyreprList xs) ++ "]"

/-- Helper mapping `pyrepr` over a list of values. -/
def pyreprList : List PyVal → List String
  | [] => []
  | x :: xs => pyrepr x :: pyreprList xs

end

/-- Body of the `for tag in v` loop of the `normalize_tags` validators
(`app/models/userstory.py` lines 61-70, identically `app/models/task.py`):
a non-empty list element contributes `str(tag[0])`
(`isinstance(tag, list) and len(tag) > 0`), a string element is kept as-is,
anything else is skipped. -/
def normalizeLoop : List PyVal → List String
  | [] => []
  | PyVal.list (t0 :: _) :: rest => pystr t0 :: normalizeLoop rest
  | PyVal.str s :: rest => s :: normalizeLoop rest
  | _ :: rest => normalizeLoop rest

/-- The `normalize_tags` field validator: `if not v: return []` (absent /
`None` / empty list give the empty result), else the element loop. -/
def normalize_tags (v : Option (List PyVal)) : List String :=
  match v with
  | Option.none => []
  | some xs => if xs.isEmpty then [] else normalizeLoop xs

/-- Per-element rule exactly as the specification words it: only an element
that is a two-element sequence contributes its first element's string
conversion; a string is kept; any other shape is dropped. -/
def specTagElem : PyVal → Option String
  | .list [t0, _] => some (pystr t0)
  | .str s => some s
  | _ => Option.none

/-- Tag normalization as the specification describes it, built from
`specTagElem`; used to compare the spec's wording against the code. -/
def normalize_tags_spec (v : Option (List PyVal)) : List String :=
  match v with
  | Option.none => []
  | some xs => xs.filterMap specTagElem

/-- Per-element rule amended to match the code: any non-empty sequence
(not only a two-element one) contributes its first element's string
conversion; a string is kept; any other shape is dropped. -/
def amendedTagElem : PyVal → Option String
  | .list (t0 :: _) => some (pystr t0)
  | .str s => some s
  | _ => Option.none

theorem normalizeLoop_eq_filterMap (xs : List PyVal) :
    normalizeLoop xs = xs.filterMap amendedTagElem := by
  induction xs with
  | nil => rfl
  | cons t rest ih =>
    cases t with
    | str s => simp [normalizeLoop, amendedTagElem, List.filterMap, ih]
    | int n => simp [normalizeLoop, amendedTagElem, List.filterMap, ih]
    | noneV => simp [normalizeLoop, amendedTagElem, List.filterMap, ih]
    | list ys =>
      cases ys with
      | nil => simp [normalizeLoop, amendedTagElem, List.filterMap, ih]
      | cons t0 ts => simp [normalizeLoop, amendedTagElem, List.filterMap, ih]

/-- C4 counterexample: the code keeps a one-element list (taking its first
element), while the claim's rule (two-element sequences only) would drop
it: `normalize([["a"]])` is `["a"]` in the code but `[]` under the claim. -/
theorem c4_counterexample :
    normalize_tags (some [PyVal.list [PyVal.str "a"]]) = ["a"] ∧
    normalize_tags_spec (some [PyVal.list [PyVal.str "a"]]) = [] := by
  constructor <;> rfl

/-- C4 (amended): tag normalization maps an absent or empty input to the
empty list; an element that is a NON-EMPTY sequence contributes its first
element's string conversion; a string element is kept as-is; any other
shape is dropped; order is preserved, duplicates are kept, and the function
is total (never fails).  The worked example of the claim also holds. -/
theorem c4_amended_normalize_tags :
    (∀ v : Option (List PyVal),
        normalize_tags v =
          match v with
          | Option.none => []
          | some xs => xs.filterMap amendedTagElem) ∧
    normalize_tags (some [PyVal.list [PyVal.str "a", PyVal.noneV],
        PyVal.str "b", PyVal.list [PyVal.str "c", PyVal.str "red"],
        PyVal.int 42]) = ["a", "b", "c"] := by
  constructor
  · intro v
    cases v with
    | none => rfl
    | some xs =>
      cases xs with
      | nil => rfl
      | cons t rest =>
        simp only [normalize_tags, List.isEmpty_cons, if_neg Bool.false_ne_true]
        exact normalizeLoop_eq_filterMap _
  · rfl

theorem normalizeLoop_strings (l : List String) :
    normalizeLoop (l.map PyVal.str) = l := by
  induction l with
  | nil => rfl
  | cons s rest ih => simp [normalizeLoop, ih]

/-- C9: tag normalization is idempotent — feeding the (purely string)
output of `normalize_tags` back through the validator returns it
unchanged, for every input shape. -/
theorem c9_normalize_idempotent :
    ∀ v : Option (List PyVal),
      normalize_tags (some ((normalize_tags v).map PyVal.str)) =
        normalize_tags v := by
  intro v
  cases h : normalize_tags v with
  | nil => rfl
  | cons s rest =>
    simp only [normalize_tags, List.map_cons, List.isEmpty_cons,
      if_neg Bool.false_ne_true]
    exact normalizeLoop_strings (s :: rest)

/-- Decimal digits of a character list read as a natural number. -/
def digitsToNat (ds : List Char) : Nat :=
  ds.foldl (fun a c => a * 10 + (c.toNat - 48)) 0

/-- Strip leading and trailing whitespace from a character list. -/
def stripChars (cs : List Char) : List Char :=
  ((cs.dropWhile (·.isWhitespace)).reverse.dropWhile (·.isWhitespace)).reverse

/-- Model of Python `int(s)` on the string inputs this layer sees: optional
surrounding whitespace, an optional sign, then at least one decimal digit;
anything else raises, modelled as `Option.none`. -/
def pyint (s : String) : Option Int :=
  match stripChars s.toList with
  | '-' :: rest =>
      if !rest.isEmpty && rest.all (·.isDigit) then
        some (-(digitsToNat rest : Int))
      else Option.none
  | '+' :: rest =>
      if !rest.isEmpty && rest.all (·.isDigit) then
        some (digitsToNat rest : Int)
      else Option.none
  | cs =>
      if !cs.isEmpty && cs.all (·.isDigit) then
        some (digitsToNat cs : Int)
      else Option.none

/-- Python `str.isdigit`: non-empty and every character a decimal digit. -/
def pyisdigit (s : String) : Bool :=
  !s.isEmpty && s.toList.all (·.isDigit)

/-- Project record as returned by the (out-of-scope) project service:
the numeric id and the display name used by `resolve_project_id`. -/
structure Project where
  id : Int
  name : String

/-- User story record as consumed by `resolve_user_story_id`: the
globally unique id and the project-scoped `ref`. -/
structure Story where
  id : Int
  ref : Nat

/-- Network calls the resolver can issue, recorded as an explicit trace so
that claims about which calls are performed can be stated. -/
inductive ApiCall where
  | getProject (id : Int)
  | getProjectBySlug (slug : String)
  | listUserStories (project : Int)
deriving DecidableEq

/-- Errors of the resolution layer: `ValueError` sites in `app/server.py`
are split along the specification's taxonomy (missing scoping parameter,
entity not found, unparsable integer literal). -/
inductive ResolveError where
  | missingParameter (msg : String)
  | notFound (msg : String)
  | badIntLiteral (s : String)
deriving DecidableEq

/-- Environment standing for the out-of-scope project and user-story
services (`ProjectService.get_project`, `get_project_by_slug`,
`UserStoryService.list_user_stories`): pure lookup functions, as the
specification treats the transport as an opaque `get` capability that
either yields the entity or reports it missing. -/
structure TaigaEnv where
  projectById : Int → Option Project
  projectBySlug : String → Option Project
  storiesOf : Int → List Story

/-- Translation of `resolve_project_id` (`app/server.py` lines 361-369):
an all-digit identifier is fetched by numeric id, anything else by slug;
a missing project surfaces as `notFound`.  The second component records
the network calls issued. -/
def resolve_project_id (env : TaigaEnv) (identifier : String) :
    Except ResolveError (Int × String) × List ApiCall :=
  if pyisdigit identifier then
    let n : Int := (digitsToNat identifier.toList : Int)
    match env.projectById n with
    | some p => (Except.ok (p.id, p.name), [ApiCall.getProject n])
    | Option.none =>
        (Except.error (ResolveError.notFound ("Project " ++ identifier ++ " not found")),
         [ApiCall.getProject n])
  else
    match env.projectBySlug identifier with
    | some p => (Except.ok (p.id, p.name), [ApiCall.getProjectBySlug identifier])
    | Option.none =>
        (Except.error (ResolveError.notFound ("Project " ++ identifier ++ " not found")),
         [ApiCall.getProjectBySlug identifier])

/-- Linear scan of `for story in stories: if str(story.ref) == ref_number:
return story.id` (`app/server.py` lines 389-391). -/
def findStoryByRef (ref_number : String) : List Story → Option Int
  | [] => Option.none
  | st :: rest =>
      if toString st.ref == ref_number then some st.id
      else findStoryByRef ref_number rest

/-- Python `s.startswith("#")` as a first-character test. -/
def startsWithHash (s : String) : Bool :=
  match s.toList with
  | '#' :: _ => true
  | _ => false

/-- Translation of `resolve_user_story_id` (`app/server.py` lines 372-395).
A `#`-prefixed identifier requires a truthy project identifier
(`if not project_identifier` also rejects the empty string), resolves the
project, lists its stories and scans for the ref; otherwise the identifier
is parsed with `int(...)` and returned directly.  The second component is
the trace of network calls issued. -/
def resolve_user_story_id (env : TaigaEnv) (identifier : String)
    (project_identifier : Option String) :
    Except ResolveError Int × List ApiCall :=
  if startsWithHash identifier then
    match project_identifier with
    | Option.none =>
        (Except.error (ResolveError.missingParameter
          "Project identifier is required when using user story reference number"), [])
    | some pid =>
      if pid.toList.isEmpty then
        (Except.error (ResolveError.missingParameter
          "Project identifier is required when using user story reference number"), [])
      else
        match resolve_project_id env pid with
        | (Except.error e, calls) => (Except.error e, calls)
        | (Except.ok (project_id, _), calls) =>
          let ref_number := String.mk (identifier.toList.drop 1)
          let stories := env.storiesOf project_id
          match findStoryByRef ref_number stories with
          | some sid => (Except.ok sid, calls ++ [ApiCall.listUserStories project_id])
          | Option.none =>
              (Except.error (ResolveError.notFound
                ("User story with reference " ++ identifier ++ " not found")),
               calls ++ [ApiCall.listUserStories project_id])
  else
    match pyint identifier with
    | some n => (Except.ok n, [])
    | Option.none => (Except.error (ResolveError.badIntLiteral identifier), [])

/-- C6: a `#`-style user-story identifier given without a project
identifier fails immediately with the missing-parameter error and the
network-call trace is empty — no call is attempted. -/
theorem c6_ref_requires_project (env : TaigaEnv) (identifier : String)
    (h : startsWithHash identifier = true) :
    resolve_user_story_id env identifier Option.none =
      (Except.error (ResolveError.missingParameter
        "Project identifier is required when using user story reference number"), []) := by
  simp [resolve_user_story_id, h]

/-- Witness for C6 at the concrete identifier `"#7"` in an environment
with no projects and no stories. -/
theorem c6_witness :
    resolve_user_story_id
      ⟨fun _ => Option.none, fun _ => Option.none, fun _ => []⟩ "#7" Option.none =
      (Except.error (ResolveError.missingParameter
        "Project identifier is required when using user story reference number"), []) :=
  c6_ref_requires_project _ "#7" (by decide)

theorem hash_append_mk (dl : List Char) :
    ("#" ++ String.mk dl) = String.mk ('#' :: dl) := rfl

/-- C7: for a `#<digits>` identifier with a project identifier supplied,
resolution first resolves the project (hypothesis `hpr` records that call's
result and trace), then lists that project's user stories and linearly
scans them comparing each story's `ref` rendered as a string against the
digits after `#` (`findStoryByRef` is that loop, returning the first
match); the id of the first matching story is returned, and when no story
matches the result is the not-found error.  The trace extends the
project-resolution trace with exactly the one list-user-stories call. -/
theorem c7_ref_resolution (env : TaigaEnv) (ds pid : String)
    (project_id : Int) (pname : String) (calls : List ApiCall)
    (hds : pyisdigit ds = true)
    (hpid : pid.toList.isEmpty = false)
    (hpr : resolve_project_id env pid = (Except.ok (project_id, pname), calls)) :
    resolve_user_story_id env ("#" ++ ds) (some pid) =
      match findStoryByRef ds (env.storiesOf project_id) with
      | some sid => (Except.ok sid, calls ++ [ApiCall.listUserStories project_id])
      | Option.none =>
          (Except.error (ResolveError.notFound
            ("User story with reference " ++ ("#" ++ ds) ++ " not found")),
           calls ++ [ApiCall.listUserStories project_id]) := by
  obtain ⟨dl⟩ := ds
  rw [hash_append_mk]
  simp only [resolve_user_story_id, startsWithHash, hpid, Bool.false_eq_true,
    if_false, hpr]
  rfl

/-- Concrete environment for the C7 witness: project slug `demo` has id
`77`, and project `77` contains exactly one story with `ref = 7` and
`id = 501`. -/
def demoEnv : TaigaEnv where
  projectById := fun _ => Option.none
  projectBySlug := fun s => if s == "demo" then some ⟨77, "Demo"⟩ else Option.none
  storiesOf := fun p => if p == 77 then [⟨501, 7⟩] else []

/-- Witness for C7: resolving `"#7"` in project `demo` returns `501` after
one project lookup and one story-list call. -/
theorem c7_witness :
    resolve_user_story_id demoEnv ("#" ++ "7") (some "demo") =
      (Except.ok 501,
       [ApiCall.getProjectBySlug "demo", ApiCall.listUserStories 77]) := by
  rw [c7_ref_resolution demoEnv "7" "demo" 77 "Demo"
    [ApiCall.getProjectBySlug "demo"] (by decide) (by decide) (by rfl)]
  rfl

/-- Exact decimal standing for the Python float produced by `float(...)`
on a decimal literal: the value is `mant / 10 ^ scale`.  Lossless for the
plain decimal strings this layer parses and forwards. -/
structure PyFloat where
  mant : Int
  scale : Nat
deriving DecidableEq

/-- Model of Python `float(s)` on plain decimal strings: optional
surrounding whitespace, optional sign, digits with at most one decimal
point and at least one digit overall; every other input (including the
empty string) raises `ValueError`, modelled as `Option.none`.  Exponent
forms, `inf` and `nan` never reach this layer. -/
def pyfloat (s : String) : Option PyFloat :=
  let cs := stripChars s.toList
  let signBody : Int × List Char :=
    match cs with
    | '-' :: rest => (-1, rest)
    | '+' :: rest => (1, rest)
    | _ => (1, cs)
  let sgn := signBody.1
  let body := signBody.2
  let intPart := body.takeWhile (fun c => c != '.')
  let dotRest := body.dropWhile (fun c => c != '.')
  match dotRest with
  | [] =>
      if !intPart.isEmpty && intPart.all (·.isDigit) then
        some ⟨sgn * (digitsToNat intPart : Int), 0⟩
      else Option.none
  | _ :: fracPart =>
      if (!intPart.isEmpty || !fracPart.isEmpty) &&
          intPart.all (·.isDigit) && fracPart.all (·.isDigit) then
        some ⟨sgn * ((digitsToNat intPart : Int) * (10 : Int) ^ fracPart.length
                + (digitsToNat fracPart : Int)),
              fracPart.length⟩
      else Option.none

/-- Python `s.lower()` (ASCII case folding, as used on status and member
names). -/
def pylower (s : String) : String :=
  String.mk (s.toList.map Char.toLower)

/-- Python truthiness of an optional string argument, as tested by
`"f" in arguments and arguments["f"]`: present and non-empty. -/
def truthyStr : Option String → Bool
  | some s => !s.toList.isEmpty
  | Option.none => false

/-- Status record as consumed by the status loops: display name and id. -/
structure StatusRec where
  id : Int
  name : String

/-- Project membership record as consumed by the assignee loops
(`app/server.py` lines 654-678): direct username and full-name fields,
the embedded secondary `user_extra_info` bag, and the back-reference
numeric user id. -/
structure Member where
  username : Option String
  full_name : Option String
  user_extra_info : Option (List (String × String))
  user : Int

/-- Current points value of a story: absent, a scalar, or a role-based
mapping whose association list keeps the dict's insertion order. -/
inductive Points where
  | absent
  | scalar (x : PyFloat)
  | roleBased (m : List (String × PyFloat))

/-- The slice of the current story the reconciler reads: the optimistic
concurrency `version` and the current `points` shape. -/
structure CurrentStory where
  version : Nat
  points : Points

/-- Argument bag of the `updateUserStory` tool: every field optional,
`Option.none` meaning the key is absent from `arguments`. -/
structure UpdateUserStoryArgs where
  subject : Option String := Option.none
  description : Option String := Option.none
  tags : Option (List String) := Option.none
  points : Option String := Option.none
  dueDate : Option String := Option.none
  status : Option String := Option.none
  assignedTo : Option String := Option.none

/-- Value stored under the `points` key of the update payload. -/
inductive PointsPayload where
  | scalar (x : PyFloat)
  | null
  | raw (s : String)
  | roleMap (role : String) (x : PyFloat)
deriving DecidableEq

/-- The `update_data` payload of the `updateUserStory` branch: an optional
entry per patch field plus the mandatory version stamp. -/
structure USUpdatePayload where
  version : Nat
  subject : Option String
  description : Option String
  tags : Option (List String)
  points : Option PointsPayload
  due_date : Option String
  status : Option Int
  assigned_to : Option Int
deriving DecidableEq

/-- Errors aborting an update before submission, each carrying the
valid-alternative list rendered into the error text. -/
inductive ReconcileError where
  | statusNotFound (requested : String) (valid : List String)
  | memberNotFound (requested : String) (available : List (Option String))

/-- Status loop `for status in statuses: if status.name.lower() ==
target.lower()` — first case-insensitive match wins. -/
def findStatus (target : String) : List StatusRec → Option StatusRec
  | [] => Option.none
  | st :: rest =>
      if pylower st.name == pylower target then some st
      else findStatus target rest

/-- Python `dict.get` on the embedded string-to-string bag. -/
def dictGet (d : List (String × String)) (k : String) : Option String :=
  match d with
  | [] => Option.none
  | kv :: rest => if kv.1 == k then some kv.2 else dictGet rest k

/-- Python `a or b` on optional strings: `None` and the empty string fall
through to `b`. -/
def pyOrStr (a b : Option String) : Option String :=
  match a with
  | some s => if s.toList.isEmpty then b else some s
  | Option.none => b

/-- Effective username of a member: the direct field, else the secondary
info bag's `username` entry (`member.username or (member.user_extra_info
.get("username") if member.user_extra_info else None)`). -/
def effectiveUsername (m : Member) : Option String :=
  pyOrStr m.username
    (match m.user_extra_info with
     | some d => dictGet d "username"
     | Option.none => Option.none)

/-- Effective full name of a member, with the same two-tier fallback. -/
def effectiveFullName (m : Member) : Option String :=
  pyOrStr m.full_name
    (match m.user_extra_info with
     | some d => dictGet d "full_name"
     | Option.none => Option.none)

/-- Truthiness-guarded case-insensitive comparison `if name and
name.lower() == target.lower()`. -/
def nameMatches (v : Option String) (target : String) : Bool :=
  match v with
  | some s => !s.toList.isEmpty && (pylower s == pylower target)
  | Option.none => false

/-- Assignee scan of the update branches: a single pass over the members,
testing username then full name per member, first hit returning the
member's back-reference user id. -/
def findMemberUserId (target : String) : List Member → Option Int
  | [] => Option.none
  | m :: rest =>
      if nameMatches (effectiveUsername m) target then some m.user
      else if nameMatches (effectiveFullName m) target then some m.user
      else findMemberUserId target rest

/-- Display list rendered into the member-not-found error text:
`m.username or (m.user_extra_info.get("username") if m.user_extra_info
else "unknown")` per member (the bag's `get` can itself yield `None`). -/
def availableUsernames (members : List Member) : List (Option String) :=
  members.map (fun m =>
    pyOrStr m.username
      (match m.user_extra_info with
       | some d => dictGet d "username"
       | Option.none => some "unknown"))

/-- Points reconciliation of the `updateUserStory` branch (`app/server.py`
lines 606-628), reached only with a truthy incoming value: a non-empty
role-based current mapping keeps its first role key and coerces the value
(coercion failure logs a warning and emits nothing); otherwise the scalar
path coerces, falling back to `None` for a falsy value (dead under the
outer truthiness guard) and to the raw string when coercion fails.
Returns the optional points entry and the warnings logged. -/
def pointsUpdate (cur : Points) (points_value : String) :
    Option PointsPayload × List String :=
  match cur with
  | Points.roleBased (kv :: _) =>
      (match pyfloat points_value with
       | some x => (some (PointsPayload.roleMap kv.1 x), [])
       | Option.none =>
           (Option.none,
            ["Could not convert points value \x27" ++ points_value
              ++ "\x27 to float"]))
  | _ =>
      if !points_value.toList.isEmpty then
        match pyfloat points_value with
        | some x => (some (PointsPayload.scalar x), [])
        | Option.none => (some (PointsPayload.raw points_value), [])
      else (some PointsPayload.null, [])

/-- Translation of the `updateUserStory` reconciler (`app/server.py` lines
597-679): stamps the current version, copies subject, description, tags
and due date whenever their key is present, reconciles points only for a
present-and-truthy value, then resolves status and assignee (each only for
a present-and-truthy value), aborting with an error — and producing no
payload — when either resolution finds no match.  A successful result
carries the payload and the warnings logged. -/
def buildUserStoryUpdate (current : CurrentStory) (args : UpdateUserStoryArgs)
    (statuses : List StatusRec) (members : List Member) :
    Except ReconcileError (USUpdatePayload × List String) :=
  let pw : Option PointsPayload × List String :=
    match args.points with
    | some pv =>
        if pv.toList.isEmpty then (Option.none, [])
        else pointsUpdate current.points pv
    | Option.none => (Option.none, [])
  let payload0 : USUpdatePayload :=
    { version := current.version
      subject := args.subject
      description := args.description
      tags := args.tags
      points := pw.1
      due_date := args.dueDate
      status := Option.none
      assigned_to := Option.none }
  let step1 : Except ReconcileError USUpdatePayload :=
    match args.status with
    | some sname =>
        if sname.toList.isEmpty then Except.ok payload0
        else
          match findStatus sname statuses with
          | some st => Except.ok { payload0 with status := some st.id }
          | Option.none =>
              Except.error (ReconcileError.statusNotFound sname
                (statuses.map (fun st => st.name)))
    | Option.none => Except.ok payload0
  match step1 with
  | Except.error e => Except.error e
  | Except.ok payload1 =>
    match args.assignedTo with
    | some aname =>
        if aname.toList.isEmpty then Except.ok (payload1, pw.2)
        else
          match findMemberUserId aname members with
          | some uid => Except.ok ({ payload1 with assigned_to := some uid }, pw.2)
          | Option.none =>
              Except.error (ReconcileError.memberNotFound aname
                (availableUsernames members))
    | Option.none => Except.ok (payload1, pw.2)

/-- Argument bag of the `updateTask` tool. -/
structure UpdateTaskArgs where
  subject : Option String := Option.none
  description : Option String := Option.none
  tags : Option (List String) := Option.none
  comment : Option String := Option.none
  status : Option String := Option.none
  assignedTo : Option String := Option.none

/-- The `update_data` payload of the `updateTask` branch. -/
structure TaskUpdatePayload where
  version : Nat
  subject : Option String
  description : Option String
  tags : Option (List String)
  comment : Option String
  status : Option Int
  assigned_to : Option Int
deriving DecidableEq

/-- Translation of the `updateTask` reconciler (`app/server.py` lines
796-856): stamps the current version, copies subject, description and tags
whenever present, copies the comment only when present and truthy, then
resolves status and assignee exactly as the user-story branch does. -/
def buildTaskUpdate (current_version : Nat) (args : UpdateTaskArgs)
    (statuses : List StatusRec) (members : List Member) :
    Except ReconcileError TaskUpdatePayload :=
  let payload0 : TaskUpdatePayload :=
    { version := current_version
      subject := args.subject
      description := args.description
      tags := args.tags
      comment :=
        match args.comment with
        | some c => if c.toList.isEmpty then Option.none else some c
        | Option.none => Option.none
      status := Option.none
      assigned_to := Option.none }
  let step1 : Except ReconcileError TaskUpdatePayload :=
    match args.status with
    | some sname =>
        if sname.toList.isEmpty then Except.ok payload0
        else
          match findStatus sname statuses with
          | some st => Except.ok { payload0 with status := some st.id }
          | Option.none =>
              Except.error (ReconcileError.statusNotFound sname
                (statuses.map (fun st => st.name)))
    | Option.none => Except.ok payload0
  match step1 with
  | Except.error e => Except.error e
  | Except.ok payload1 =>
    match args.assignedTo with
    | some aname =>
        if aname.toList.isEmpty then Except.ok payload1
        else
          match findMemberUserId aname members with
          | some uid => Except.ok { payload1 with assigned_to := some uid }
          | Option.none =>
              Except.error (ReconcileError.memberNotFound aname
                (availableUsernames members))
    | Option.none => Except.ok payload1

/-- Argument bag of the `createUserStory` tool. -/
structure CreateUserStoryArgs where
  subject : String
  description : Option String := Option.none
  status : Option String := Option.none
  tags : Option (List String) := Option.none

/-- The `CreateUserStoryRequest` payload built by the create branch. -/
structure CreateUserStoryPayload where
  project : Int
  subject : String
  description : Option String
  status : Option Int
  tags : Option (List String)
deriving DecidableEq

/-- Translation of the `createUserStory` branch's status handling
(`app/server.py` lines 475-495): a present-and-truthy status name is
looked up case-insensitively, but an unmatched name simply leaves
`status_id` as `None` and the creation proceeds — no error is raised. -/
def buildCreateUserStory (project_id : Int) (args : CreateUserStoryArgs)
    (statuses : List StatusRec) : CreateUserStoryPayload :=
  let status_id : Option Int :=
    match args.status with
    | some sname =>
        if sname.toList.isEmpty then Option.none
        else
          match findStatus sname statuses with
          | some st => some st.id
          | Option.none => Option.none
    | Option.none => Option.none
  { project := project_id
    subject := args.subject
    description := args.description
    status := status_id
    tags := args.tags }

/-- Value of the points entry of a successful user-story update payload,
as a function of the arguments and the current story. -/
def usPointsField (current : CurrentStory) (args : UpdateUserStoryArgs) :
    Option PointsPayload :=
  match args.points with
  | some pv =>
      if pv.toList.isEmpty then Option.none
      else (pointsUpdate current.points pv).1
  | Option.none => Option.none

/-- Warnings logged by a successful user-story update build. -/
def usPointsWarnings (current : CurrentStory) (args : UpdateUserStoryArgs) :
    List String :=
  match args.points with
  | some pv =>
      if pv.toList.isEmpty then []
      else (pointsUpdate current.points pv).2
  | Option.none => []

/-- Value of the status entry of a successful update payload. -/
def statusField (s : Option String) (statuses : List StatusRec) : Option Int :=
  match s with
  | some sname =>
      if sname.toList.isEmpty then Option.none
      else (findStatus sname statuses).map (fun st => st.id)
  | Option.none => Option.none

/-- Value of the assignee entry of a successful update payload. -/
def assigneeField (a : Option String) (members : List Member) : Option Int :=
  match a with
  | some aname =>
      if aname.toList.isEmpty then Option.none
      else findMemberUserId aname members
  | Option.none => Option.none

/-- Value of the comment entry of a successful task update payload. -/
def commentField (c : Option String) : Option String :=
  match c with
  | some cv => if cv.toList.isEmpty then Option.none else some cv
  | Option.none => Option.none

theorem data_eq_nil_of_isEmpty {s : String} (h : s.toList.isEmpty = true) :
    s.data = [] := by
  cases s with
  | mk l => cases l <;> simp_all [String.toList]

theorem data_ne_nil_of_isEmpty_false {s : String}
    (h : ¬s.toList.isEmpty = true) : ¬s.data = [] := by
  intro hd
  apply h
  cases s with
  | mk l => simp_all [String.toList]

theorem points_pair_fst (current : CurrentStory) (args : UpdateUserStoryArgs) :
    (match args.points with
     | some pv =>
         if pv.toList.isEmpty then (Option.none, ([] : List String))
         else pointsUpdate current.points pv
     | Option.none => (Option.none, [])).1 = usPointsField current args := by
  unfold usPointsField
  cases args.points with
  | none => rfl
  | some pv =>
    by_cases h : pv.toList.isEmpty
    · simp [data_eq_nil_of_isEmpty h]
    · simp [data_ne_nil_of_isEmpty_false h]

theorem points_pair_snd (current : CurrentStory) (args : UpdateUserStoryArgs) :
    (match args.points with
     | some pv =>
         if pv.toList.isEmpty then (Option.none, ([] : List String))
         else pointsUpdate current.points pv
     | Option.none => (Option.none, [])).2 = usPointsWarnings current args := by
  unfold usPointsWarnings
  cases args.points with
  | none => rfl
  | some pv =>
    by_cases h : pv.toList.isEmpty
    · simp [data_eq_nil_of_isEmpty h]
    · simp [data_ne_nil_of_isEmpty_false h]

theorem buildUS_ok_char (current : CurrentStory) (args : UpdateUserStoryArgs)
    (statuses : List StatusRec) (members : List Member)
    (p : USUpdatePayload) (w : List String)
    (hok : buildUserStoryUpdate current args statuses members =
      Except.ok (p, w)) :
    p.version = current.version ∧
    p.subject = args.subject ∧
    p.description = args.description ∧
    p.tags = args.tags ∧
    p.due_date = args.dueDate ∧
    p.points = usPointsField current args ∧
    w = usPointsWarnings current args ∧
    p.status = statusField args.status statuses ∧
    p.assigned_to = assigneeField args.assignedTo members := by
  simp only [buildUserStoryUpdate] at hok
  cases hs : args.status with
  | none =>
    simp only [hs] at hok
    cases ha : args.assignedTo with
    | none =>
      simp only [ha] at hok
      cases hok
      exact ⟨rfl, rfl, rfl, rfl, rfl, points_pair_fst current args,
        points_pair_snd current args, by simp [statusField, hs],
        by simp [assigneeField, ha]⟩
    | some aname =>
      simp only [ha] at hok
      by_cases hae : aname.toList.isEmpty
      · simp only [hae, if_true] at hok
        cases hok
        exact ⟨rfl, rfl, rfl, rfl, rfl, points_pair_fst current args,
          points_pair_snd current args, by simp [statusField, hs],
          by simp [assigneeField, ha, data_eq_nil_of_isEmpty hae]⟩
      · simp only [hae, if_false] at hok
        cases hm : findMemberUserId aname members with
        | none => simp [hm] at hok
        | some uid =>
          simp only [hm] at hok
          cases hok
          exact ⟨rfl, rfl, rfl, rfl, rfl, points_pair_fst current args,
            points_pair_snd current args, by simp [statusField, hs],
            by simp [assigneeField, ha, data_ne_nil_of_isEmpty_false hae, hm]⟩
  | some sname =>
    simp only [hs] at hok
    by_cases hse : sname.toList.isEmpty
    · simp only [hse, if_true] at hok
      cases ha : args.assignedTo with
      | none =>
        simp only [ha] at hok
        cases hok
        exact ⟨rfl, rfl, rfl, rfl, rfl, points_pair_fst current args,
          points_pair_snd current args,
          by simp [statusField, hs, data_eq_nil_of_isEmpty hse],
          by simp [assigneeField, ha]⟩
      | some aname =>
        simp only [ha] at hok
        by_cases hae : aname.toList.isEmpty
        · simp only [hae, if_true] at hok
          cases hok
          exact ⟨rfl, rfl, rfl, rfl, rfl, points_pair_fst current args,
            points_pair_snd current args,
            by simp [statusField, hs, data_eq_nil_of_isEmpty hse],
            by simp [assigneeField, ha, data_eq_nil_of_isEmpty hae]⟩
        · simp only [hae, if_false] at hok
          cases hm : findMemberUserId aname members with
          | none => simp [hm] at hok
          | some uid =>
            simp only [hm] at hok
            cases hok
            exact ⟨rfl, rfl, rfl, rfl, rfl, points_pair_fst current args,
              points_pair_snd current args,
              by simp [statusField, hs, data_eq_nil_of_isEmpty hse],
              by simp [assigneeField, ha, data_ne_nil_of_isEmpty_false hae, hm]⟩
    · simp only [hse, if_false] at hok
      cases hf : findStatus sname statuses with
      | none => simp [hf] at hok
      | some st =>
        simp only [hf] at hok
        cases ha : args.assignedTo with
        | none =>
          simp only [ha] at hok
          cases hok
          exact ⟨rfl, rfl, rfl, rfl, rfl, points_pair_fst current args,
            points_pair_snd current args,
            by simp [statusField, hs, data_ne_nil_of_isEmpty_false hse, hf],
            by simp [assigneeField, ha]⟩
        | some aname =>
          simp only [ha] at hok
          by_cases hae : aname.toList.isEmpty
          · simp only [hae, if_true] at hok
            cases hok
            exact ⟨rfl, rfl, rfl, rfl, rfl, points_pair_fst current args,
              points_pair_snd current args,
              by simp [statusField, hs, data_ne_nil_of_isEmpty_false hse, hf],
              by simp [assigneeField, ha, data_eq_nil_of_isEmpty hae]⟩
          · simp only [hae, if_false] at hok
            cases hm : findMemberUserId aname members with
            | none => simp [hm] at hok
            | some uid =>
              simp only [hm] at hok
              cases hok
              exact ⟨rfl, rfl, rfl, rfl, rfl, points_pair_fst current args,
                points_pair_snd current args,
                by simp [statusField, hs, data_ne_nil_of_isEmpty_false hse, hf],
                by simp [assigneeField, ha, data_ne_nil_of_isEmpty_false hae, hm]⟩

theorem buildTask_ok_char (current_version : Nat) (args : UpdateTaskArgs)
    (statuses : List StatusRec) (members : List Member)
    (p : TaskUpdatePayload)
    (hok : buildTaskUpdate current_version args statuses members =
      Except.ok p) :
    p.version = current_version ∧
    p.subject = args.subject ∧
    p.description = args.description ∧
    p.tags = args.tags ∧
    p.comment = commentField args.comment ∧
    p.status = statusField args.status statuses ∧
    p.assigned_to = assigneeField args.assignedTo members := by
  simp only [buildTaskUpdate] at hok
  cases hs : args.status with
  | none =>
    simp only [hs] at hok
    cases ha : args.assignedTo with
    | none =>
      simp only [ha] at hok
      cases hok
      exact ⟨rfl, rfl, rfl, rfl, rfl, by simp [statusField, hs],
        by simp [assigneeField, ha]⟩
    | some aname =>
      simp only [ha] at hok
      by_cases hae : aname.toList.isEmpty
      · simp only [hae, if_true] at hok
        cases hok
        exact ⟨rfl, rfl, rfl, rfl, rfl, by simp [statusField, hs],
          by simp [assigneeField, ha, data_eq_nil_of_isEmpty hae]⟩
      · simp only [hae, if_false] at hok
        cases hm : findMemberUserId aname members with
        | none => simp [hm] at hok
        | some uid =>
          simp only [hm] at hok
          cases hok
          exact ⟨rfl, rfl, rfl, rfl, rfl, by simp [statusField, hs],
            by simp [assigneeField, ha, data_ne_nil_of_isEmpty_false hae, hm]⟩
  | some sname =>
    simp only [hs] at hok
    by_cases hse : sname.toList.isEmpty
    · simp only [hse, if_true] at hok
      cases ha : args.assignedTo with
      | none =>
        simp only [ha] at hok
        cases hok
        exact ⟨rfl, rfl, rfl, rfl, rfl,
          by simp [statusField, hs, data_eq_nil_of_isEmpty hse],
          by simp [assigneeField, ha]⟩
      | some aname =>
        simp only [ha] at hok
        by_cases hae : aname.toList.isEmpty
        · simp only [hae, if_true] at hok
          cases hok
          exact ⟨rfl, rfl, rfl, rfl, rfl,
            by simp [statusField, hs, data_eq_nil_of_isEmpty hse],
            by simp [assigneeField, ha, data_eq_nil_of_isEmpty hae]⟩
        · simp only [hae, if_false] at hok
          cases hm : findMemberUserId aname members with
          | none => simp [hm] at hok
          | some uid =>
            simp only [hm] at hok
            cases hok
            exact ⟨rfl, rfl, rfl, rfl, rfl,
              by simp [statusField, hs, data_eq_nil_of_isEmpty hse],
              by simp [assigneeField, ha, data_ne_nil_of_isEmpty_false hae, hm]⟩
    · simp only [hse, if_false] at hok
      cases hf : findStatus sname statuses with
      | none => simp [hf] at hok
      | some st =>
        simp only [hf] at hok
        cases ha : args.assignedTo with
        | none =>
          simp only [ha] at hok
          cases hok
          exact ⟨rfl, rfl, rfl, rfl, rfl,
            by simp [statusField, hs, data_ne_nil_of_isEmpty_false hse, hf],
            by simp [assigneeField, ha]⟩
        | some aname =>
          simp only [ha] at hok
          by_cases hae : aname.toList.isEmpty
          · simp only [hae, if_true] at hok
            cases hok
            exact ⟨rfl, rfl, rfl, rfl, rfl,
              by simp [statusField, hs, data_ne_nil_of_isEmpty_false hse, hf],
              by simp [assigneeField, ha, data_eq_nil_of_isEmpty hae]⟩
          · simp only [hae, if_false] at hok
            cases hm : findMemberUserId aname members with
            | none => simp [hm] at hok
            | some uid =>
              simp only [hm] at hok
              cases hok
              exact ⟨rfl, rfl, rfl, rfl, rfl,
                by simp [statusField, hs, data_ne_nil_of_isEmpty_false hse, hf],
                by simp [assigneeField, ha, data_ne_nil_of_isEmpty_false hae, hm]⟩

theorem toList_isEmpty_of_ne_empty {s : String} (h : s ≠ "") :
    s.toList.isEmpty = false := by
  cases s with
  | mk l =>
    cases l with
    | nil => exact absurd rfl h
    | cons c cs => rfl

/-- Shape test for the claim's precondition: the current points value is a
scalar or absent (not a role-based mapping). -/
def isScalarOrAbsent : Points → Bool
  | Points.scalar _ => true
  | Points.absent => true
  | Points.roleBased _ => false

/-- C1 counterexample: with current points the scalar `5.0` and patch
points the empty string, the reconciler's payload OMITS the points field
entirely (the present-but-falsy value never enters the points branch) —
no explicit null clear is emitted, contrary to the claim. -/
theorem c1_counterexample :
    buildUserStoryUpdate ⟨9, Points.scalar ⟨50, 1⟩⟩ { points := some "" } [] [] =
      Except.ok ({ version := 9, subject := Option.none,
                   description := Option.none, tags := Option.none,
                   points := Option.none, due_date := Option.none,
                   status := Option.none, assigned_to := Option.none }, []) := rfl

/-- C1 (amended): for an update of a user story whose current points value
is scalar or absent, a present NON-EMPTY patch points value is emitted as a
scalar when it coerces to a number and is passed through as the raw string
when coercion fails; a present-but-EMPTY points value leaves the points
field omitted from the payload entirely (no explicit null clear). -/
theorem c1_amended_scalar_points (current : CurrentStory)
    (args : UpdateUserStoryArgs) (statuses : List StatusRec)
    (members : List Member) (pv : String) (p : USUpdatePayload)
    (w : List String)
    (hcur : isScalarOrAbsent current.points = true)
    (hpv : args.points = some pv)
    (hok : buildUserStoryUpdate current args statuses members =
      Except.ok (p, w)) :
    (pv = "" → p.points = Option.none) ∧
    (pv ≠ "" →
      p.points = some (match pyfloat pv with
        | some x => PointsPayload.scalar x
        | Option.none => PointsPayload.raw pv)) := by
  obtain ⟨-, -, -, -, -, hpts, -, -, -⟩ := buildUS_ok_char _ _ _ _ _ _ hok
  rw [hpts]
  simp only [usPointsField, hpv]
  constructor
  · intro he
    subst he
    rfl
  · intro hne
    have hlist := toList_isEmpty_of_ne_empty hne
    simp only [hlist, Bool.false_eq_true, if_false]
    cases hc : current.points with
    | roleBased m =>
      rw [hc] at hcur
      cases m with
      | nil =>
        simp only [pointsUpdate, hlist, Bool.not_false, if_true]
        cases pyfloat pv <;> rfl
      | cons kv rest => simp [isScalarOrAbsent] at hcur
    | scalar x =>
      simp only [pointsUpdate, hlist, Bool.not_false, if_true]
      cases pyfloat pv <;> rfl
    | absent =>
      simp only [pointsUpdate, hlist, Bool.not_false, if_true]
      cases pyfloat pv <;> rfl

/-- Current story used by the C1 witness: version 9, scalar points 5.0. -/
def c1cur : CurrentStory := ⟨9, Points.scalar ⟨50, 1⟩⟩

/-- Patch used by the C1 witness: points supplied as the string `"8"`. -/
def c1args : UpdateUserStoryArgs := { points := some "8" }

/-- Payload produced for the C1 witness input. -/
def c1pay : USUpdatePayload :=
  { version := 9, subject := Option.none, description := Option.none,
    tags := Option.none, points := some (PointsPayload.scalar ⟨8, 0⟩),
    due_date := Option.none, status := Option.none,
    assigned_to := Option.none }

/-- Witness for the amended C1 at current scalar points `5.0` and patch
points `"8"`. -/
theorem c1_amended_witness :
    isScalarOrAbsent c1cur.points = true ∧
    ((("8" : String) = "" → c1pay.points = Option.none) ∧
     (("8" : String) ≠ "" →
       c1pay.points = some (match pyfloat "8" with
         | some x => PointsPayload.scalar x
         | Option.none => PointsPayload.raw "8"))) :=
  ⟨rfl, c1_amended_scalar_points c1cur c1args [] [] "8" c1pay [] rfl rfl rfl⟩

/-- C2 counterexample: with current points the role-based mapping
`{"4": 3.0}` and patch points the empty string, the points field is
skipped AND the warning list is empty — the claim's "skipped with a
warning" fails because the present-but-falsy value never reaches the
coercion at all. -/
theorem c2_counterexample :
    buildUserStoryUpdate ⟨1, Points.roleBased [("4", ⟨30, 1⟩)]⟩
        { points := some "" } [] [] =
      Except.ok ({ version := 1, subject := Option.none,
                   description := Option.none, tags := Option.none,
                   points := Option.none, due_date := Option.none,
                   status := Option.none, assigned_to := Option.none }, []) := rfl

/-- C2 (amended): for an update of a user story whose current points value
is a non-empty role-based mapping, a present NON-EMPTY patch points value
is emitted as a mapping from the first role key of the current mapping to
the value coerced to a float; if that coercion fails the points field is
skipped with a warning; a present-but-EMPTY value is skipped silently
(no warning).  In no case does the points handling abort the update. -/
theorem c2_amended_rolebased_points (current : CurrentStory)
    (args : UpdateUserStoryArgs) (statuses : List StatusRec)
    (members : List Member) (pv role : String) (x0 : PyFloat)
    (restRoles : List (String × PyFloat)) (p : USUpdatePayload)
    (w : List String)
    (hcur : current.points = Points.roleBased ((role, x0) :: restRoles))
    (hpv : args.points = some pv)
    (hok : buildUserStoryUpdate current args statuses members =
      Except.ok (p, w)) :
    (pv ≠ "" →
      p.points = (pyfloat pv).map (PointsPayload.roleMap role) ∧
      w = (match pyfloat pv with
        | some _ => []
        | Option.none =>
            ["Could not convert points value \x27" ++ pv
              ++ "\x27 to float"])) ∧
    (pv = "" → p.points = Option.none ∧ w = []) := by
  obtain ⟨-, -, -, -, -, hpts, hw, -, -⟩ := buildUS_ok_char _ _ _ _ _ _ hok
  rw [hpts, hw]
  simp only [usPointsField, usPointsWarnings, hpv, hcur]
  constructor
  · intro hne
    have hlist := toList_isEmpty_of_ne_empty hne
    simp only [hlist, Bool.false_eq_true, if_false, pointsUpdate]
    cases hf : pyfloat pv <;> simp [hf]
  · intro he
    subst he
    exact ⟨rfl, rfl⟩

/-- Current story used by the C2 witness: role-based points `{"4": 3.0}`. -/
def c2cur : CurrentStory := ⟨1, Points.roleBased [("4", ⟨30, 1⟩)]⟩

/-- Patch used by the C2 witness: points supplied as the string `"8"`. -/
def c2args : UpdateUserStoryArgs := { points := some "8" }

/-- Payload produced for the C2 witness input: `{"4": 8.0}`. -/
def c2pay : USUpdatePayload :=
  { version := 1, subject := Option.none, description := Option.none,
    tags := Option.none, points := some (PointsPayload.roleMap "4" ⟨8, 0⟩),
    due_date := Option.none, status := Option.none,
    assigned_to := Option.none }

/-- Witness for the amended C2 at current points `{"4": 3.0}` and patch
points `"8"`. -/
theorem c2_amended_witness :
    ((("8" : String) ≠ "" →
       c2pay.points = (pyfloat "8").map (PointsPayload.roleMap "4") ∧
       ([] : List String) = (match pyfloat "8" with
         | some _ => []
         | Option.none =>
             ["Could not convert points value \x27" ++ "8"
               ++ "\x27 to float"])) ∧
     (("8" : String) = "" →
       c2pay.points = Option.none ∧ ([] : List String) = [])) :=
  c2_amended_rolebased_points c2cur c2args [] [] "8" "4" ⟨30, 1⟩ [] c2pay []
    rfl rfl rfl

theorem usPointsField_not_truthy (current : CurrentStory)
    (args : UpdateUserStoryArgs) (h : truthyStr args.points = false) :
    usPointsField current args = Option.none := by
  cases hap : args.points with
  | none => simp [usPointsField, hap]
  | some pv =>
    rw [hap] at h
    simp only [truthyStr, Bool.not_eq_false'] at h
    simp [usPointsField, hap, data_eq_nil_of_isEmpty h]

theorem statusField_not_truthy (statuses : List StatusRec)
    {s : Option String} (h : truthyStr s = false) :
    statusField s statuses = Option.none := by
  cases hs : s with
  | none => rfl
  | some v =>
    rw [hs] at h
    simp only [truthyStr, Bool.not_eq_false'] at h
    simp [statusField, data_eq_nil_of_isEmpty h]

theorem assigneeField_not_truthy (members : List Member)
    {a : Option String} (h : truthyStr a = false) :
    assigneeField a members = Option.none := by
  cases ha : a with
  | none => rfl
  | some v =>
    rw [ha] at h
    simp only [truthyStr, Bool.not_eq_false'] at h
    simp [assigneeField, data_eq_nil_of_isEmpty h]

theorem commentField_not_truthy {c : Option String}
    (h : truthyStr c = false) : commentField c = Option.none := by
  cases hc : c with
  | none => rfl
  | some v =>
    rw [hc] at h
    simp only [truthyStr, Bool.not_eq_false'] at h
    simp [commentField, data_eq_nil_of_isEmpty h]

theorem data_ne_nil_of_isEmpty_eq_false {s : String}
    (h : s.toList.isEmpty = false) : ¬s.data = [] := by
  intro hd
  cases s with
  | mk l => simp_all [String.toList]

theorem commentField_truthy {c : Option String}
    (h : truthyStr c = true) : commentField c = c := by
  cases hc : c with
  | none => rw [hc] at h; simp [truthyStr] at h
  | some v =>
    rw [hc] at h
    simp only [truthyStr, Bool.not_eq_eq_eq_not, Bool.not_true] at h
    simp [commentField, data_ne_nil_of_isEmpty_eq_false h]

/-- C3 counterexample: a task update with the comment supplied as the
empty string — the field IS present in the patch arguments — produces a
payload with no comment entry: the inclusion test for comments is presence
AND truthiness, not presence alone. -/
theorem c3_counterexample :
    buildTaskUpdate 3 { comment := some "" } [] [] =
      Except.ok { version := 3, subject := Option.none,
                  description := Option.none, tags := Option.none,
                  comment := Option.none, status := Option.none,
                  assigned_to := Option.none } := rfl

/-- C3 (amended): in both update reconcilers the subject, description,
tags and (for user stories) due-date entries are included exactly when the
corresponding patch key is present — presence, not truthiness, so an
explicitly empty description is still applied; the points, status,
assignee and (for tasks) comment entries instead require their value to
also be truthy (non-empty), and are omitted whenever it is not, while a
present-and-truthy comment is copied verbatim. -/
theorem c3_amended_field_inclusion :
    (∀ (current : CurrentStory) (args : UpdateUserStoryArgs)
        (statuses : List StatusRec) (members : List Member)
        (p : USUpdatePayload) (w : List String),
      buildUserStoryUpdate current args statuses members = Except.ok (p, w) →
      p.subject = args.subject ∧ p.description = args.description ∧
      p.tags = args.tags ∧ p.due_date = args.dueDate ∧
      (truthyStr args.points = false → p.points = Option.none) ∧
      (truthyStr args.status = false → p.status = Option.none) ∧
      (truthyStr args.assignedTo = false → p.assigned_to = Option.none)) ∧
    (∀ (current_version : Nat) (args : UpdateTaskArgs)
        (statuses : List StatusRec) (members : List Member)
        (p : TaskUpdatePayload),
      buildTaskUpdate current_version args statuses members = Except.ok p →
      p.subject = args.subject ∧ p.description = args.description ∧
      p.tags = args.tags ∧
      (truthyStr args.comment = false → p.comment = Option.none) ∧
      (truthyStr args.comment = true → p.comment = args.comment) ∧
      (truthyStr args.status = false → p.status = Option.none) ∧
      (truthyStr args.assignedTo = false → p.assigned_to = Option.none)) := by
  constructor
  · intro current args statuses members p w hok
    obtain ⟨-, hsub, hdesc, htags, hdue, hpts, -, hstat, hassn⟩ :=
      buildUS_ok_char _ _ _ _ _ _ hok
    refine ⟨hsub, hdesc, htags, hdue, ?_, ?_, ?_⟩
    · intro h
      rw [hpts]
      exact usPointsField_not_truthy current args h
    · intro h
      rw [hstat]
      exact statusField_not_truthy statuses h
    · intro h
      rw [hassn]
      exact assigneeField_not_truthy members h
  · intro current_version args statuses members p hok
    obtain ⟨-, hsub, hdesc, htags, hcom, hstat, hassn⟩ :=
      buildTask_ok_char _ _ _ _ _ hok
    refine ⟨hsub, hdesc, htags, ?_, ?_, ?_, ?_⟩
    · intro h
      rw [hcom]
      exact commentField_not_truthy h
    · intro h
      rw [hcom]
      exact commentField_truthy h
    · intro h
      rw [hstat]
      exact statusField_not_truthy statuses h
    · intro h
      rw [hassn]
      exact assigneeField_not_truthy members h

/-- Patch used by the C3 witness: a subject plus an empty comment. -/
def c3targs : UpdateTaskArgs := { subject := some "hello", comment := some "" }

/-- Payload produced for the C3 witness input. -/
def c3tpay : TaskUpdatePayload :=
  { version := 3, subject := some "hello", description := Option.none,
    tags := Option.none, comment := Option.none, status := Option.none,
    assigned_to := Option.none }

/-- Witness for the amended C3 on the task reconciler at a patch holding a
subject and an empty comment. -/
theorem c3_amended_witness :
    c3tpay.subject = c3targs.subject ∧
    c3tpay.description = c3targs.description ∧
    c3tpay.tags = c3targs.tags ∧
    (truthyStr c3targs.comment = false → c3tpay.comment = Option.none) ∧
    (truthyStr c3targs.comment = true → c3tpay.comment = c3targs.comment) ∧
    (truthyStr c3targs.status = false → c3tpay.status = Option.none) ∧
    (truthyStr c3targs.assignedTo = false → c3tpay.assigned_to = Option.none) :=
  c3_amended_field_inclusion.2 3 c3targs [] [] c3tpay rfl

theorem findStatus_eq_none (sname : String) (statuses : List StatusRec)
    (h : ∀ st ∈ statuses, pylower st.name ≠ pylower sname) :
    findStatus sname statuses = Option.none := by
  induction statuses with
  | nil => rfl
  | cons st rest ih =>
    have hne : (pylower st.name == pylower sname) = false := by
      simp [h st (by simp)]
    simp only [findStatus, hne, Bool.false_eq_true, if_false]
    exact ih fun st2 hst2 => h st2 (List.mem_cons_of_mem _ hst2)

/-- C5 counterexample: in the `createUserStory` branch a supplied status
name matching no status (`"bogus"` against the sole status `"New"`) is
silently dropped — the request is built with no status and the creation
proceeds; no `StatusNotFoundError` is signalled on the create path. -/
theorem c5_counterexample :
    buildCreateUserStory 1 { subject := "Story", status := some "bogus" }
        [⟨1, "New"⟩] =
      { project := 1, subject := "Story", description := Option.none,
        status := Option.none, tags := Option.none } := rfl

/-- C5 (amended): in the UPDATE operations (user story and task), a
supplied non-empty status name that case-insensitively matches no status
of the resolved project aborts the entire update before submission with
the status-not-found error carrying the list of valid status names — no
payload is produced, so no other field is partially applied.  (In the
CREATE operations an unmatched status name is silently ignored instead.) -/
theorem c5_amended_status_not_found (sname : String)
    (statuses : List StatusRec) (current : CurrentStory)
    (args : UpdateUserStoryArgs) (members : List Member)
    (current_version : Nat) (targs : UpdateTaskArgs)
    (tmembers : List Member)
    (hname : sname ≠ "")
    (hnomatch : ∀ st ∈ statuses, pylower st.name ≠ pylower sname)
    (hus : args.status = some sname)
    (ht : targs.status = some sname) :
    buildUserStoryUpdate current args statuses members =
      Except.error (ReconcileError.statusNotFound sname
        (statuses.map (fun st => st.name))) ∧
    buildTaskUpdate current_version targs statuses tmembers =
      Except.error (ReconcileError.statusNotFound sname
        (statuses.map (fun st => st.name))) := by
  have hfind := findStatus_eq_none sname statuses hnomatch
  have hlist := toList_isEmpty_of_ne_empty hname
  constructor
  · simp [buildUserStoryUpdate, hus, data_ne_nil_of_isEmpty_eq_false hlist, hfind]
  · simp [buildTaskUpdate, ht, data_ne_nil_of_isEmpty_eq_false hlist, hfind]

/-- Witness for the amended C5: status `"bogus"` against the sole status
`"New"` aborts both update reconcilers with the error listing `"New"`. -/
theorem c5_amended_witness :
    buildUserStoryUpdate ⟨7, Points.absent⟩ { status := some "bogus" }
        [⟨1, "New"⟩] [] =
      Except.error (ReconcileError.statusNotFound "bogus" ["New"]) ∧
    buildTaskUpdate 4 { status := some "bogus" } [⟨1, "New"⟩] [] =
      Except.error (ReconcileError.statusNotFound "bogus" ["New"]) :=
  c5_amended_status_not_found "bogus" [⟨1, "New"⟩] ⟨7, Points.absent⟩
    { status := some "bogus" } [] 4 { status := some "bogus" } []
    (by decide) (by decide) rfl rfl

theorem usPointsField_isSome {current : CurrentStory}
    {args : UpdateUserStoryArgs}
    (h : (usPointsField current args).isSome = true) :
    args.points.isSome = true := by
  cases hap : args.points with
  | some pv => rfl
  | none => simp [usPointsField, hap] at h

theorem statusField_isSome {s : Option String} {statuses : List StatusRec}
    (h : (statusField s statuses).isSome = true) : s.isSome = true := by
  cases hs : s with
  | some v => rfl
  | none => simp [statusField, hs] at h

theorem assigneeField_isSome {a : Option String} {members : List Member}
    (h : (assigneeField a members).isSome = true) : a.isSome = true := by
  cases ha : a with
  | some v => rfl
  | none => simp [assigneeField, ha] at h

theorem commentField_isSome {c : Option String}
    (h : (commentField c).isSome = true) : c.isSome = true := by
  cases hc : c with
  | some v => rfl
  | none => simp [commentField, hc] at h

/-- C8: every successful update payload (user story and task alike)
carries exactly the current entity's version, and an entry for a patch
field is present in the payload only when that field's key is present in
the patch arguments — a non-null current value alone never brings a field
into the payload. -/
theorem c8_frame :
    (∀ (current : CurrentStory) (args : UpdateUserStoryArgs)
        (statuses : List StatusRec) (members : List Member)
        (p : USUpdatePayload) (w : List String),
      buildUserStoryUpdate current args statuses members = Except.ok (p, w) →
      p.version = current.version ∧
      (p.subject.isSome = true → args.subject.isSome = true) ∧
      (p.description.isSome = true → args.description.isSome = true) ∧
      (p.tags.isSome = true → args.tags.isSome = true) ∧
      (p.points.isSome = true → args.points.isSome = true) ∧
      (p.due_date.isSome = true → args.dueDate.isSome = true) ∧
      (p.status.isSome = true → args.status.isSome = true) ∧
      (p.assigned_to.isSome = true → args.assignedTo.isSome = true)) ∧
    (∀ (current_version : Nat) (args : UpdateTaskArgs)
        (statuses : List StatusRec) (members : List Member)
        (p : TaskUpdatePayload),
      buildTaskUpdate current_version args statuses members = Except.ok p →
      p.version = current_version ∧
      (p.subject.isSome = true → args.subject.isSome = true) ∧
      (p.description.isSome = true → args.description.isSome = true) ∧
      (p.tags.isSome = true → args.tags.isSome = true) ∧
      (p.comment.isSome = true → args.comment.isSome = true) ∧
      (p.status.isSome = true → args.status.isSome = true) ∧
      (p.assigned_to.isSome = true → args.assignedTo.isSome = true)) := by
  constructor
  · intro current args statuses members p w hok
    obtain ⟨hver, hsub, hdesc, htags, hdue, hpts, -, hstat, hassn⟩ :=
      buildUS_ok_char _ _ _ _ _ _ hok
    refine ⟨hver, ?_, ?_, ?_, ?_, ?_, ?_, ?_⟩
    · rw [hsub]; exact fun h => h
    · rw [hdesc]; exact fun h => h
    · rw [htags]; exact fun h => h
    · rw [hpts]; exact usPointsField_isSome
    · rw [hdue]; exact fun h => h
    · rw [hstat]; exact statusField_isSome
    · rw [hassn]; exact assigneeField_isSome
  · intro current_version args statuses members p hok
    obtain ⟨hver, hsub, hdesc, htags, hcom, hstat, hassn⟩ :=
      buildTask_ok_char _ _ _ _ _ hok
    refine ⟨hver, ?_, ?_, ?_, ?_, ?_, ?_⟩
    · rw [hsub]; exact fun h => h
    · rw [hdesc]; exact fun h => h
    · rw [htags]; exact fun h => h
    · rw [hcom]; exact commentField_isSome
    · rw [hstat]; exact statusField_isSome
    · rw [hassn]; exact assigneeField_isSome

/-- Current story used by the C8 witness: version 2, no points, while the
patch supplies nothing at all. -/
def c8cur : CurrentStory := ⟨2, Points.absent⟩

/-- Patch used by the C8 witness: every key absent. -/
def c8args : UpdateUserStoryArgs := {}

/-- Payload produced for the C8 witness input: version only. -/
def c8pay : USUpdatePayload :=
  { version := 2, subject := Option.none, description := Option.none,
    tags := Option.none, points := Option.none, due_date := Option.none,
    status := Option.none, assigned_to := Option.none }

/-- Witness for C8 at an empty patch against a version-2 story. -/
theorem c8_witness :
    c8pay.version = c8cur.version ∧
    (c8pay.subject.isSome = true → c8args.subject.isSome = true) ∧
    (c8pay.description.isSome = true → c8args.description.isSome = true) ∧
    (c8pay.tags.isSome = true → c8args.tags.isSome = true) ∧
    (c8pay.points.isSome = true → c8args.points.isSome = true) ∧
    (c8pay.due_date.isSome = true → c8args.dueDate.isSome = true) ∧
    (c8pay.status.isSome = true → c8args.status.isSome = true) ∧
    (c8pay.assigned_to.isSome = true → c8args.assignedTo.isSome = true) :=
  c8_frame.1 c8cur c8args [] [] c8pay [] rfl

/-- JSON-ish values appearing in a serialized request body. -/
inductive FieldVal where
  | null
  | int (n : Int)
  | nat (n : Nat)
  | str (s : String)
  | strList (l : List String)
deriving DecidableEq

/-- Serialization of one optional model field: with `exclude_none` set a
`None` value is omitted, otherwise it serializes as an explicit null. -/
def dumpOpt (k : String) (v : Option FieldVal) (exclude_none : Bool) :
    List (String × FieldVal) :=
  match v with
  | some x => [(k, x)]
  | Option.none => if exclude_none then [] else [(k, FieldVal.null)]

/-- Pydantic `model_dump` of `UpdateTaskRequest` (whose fields coincide
with the reconciler's `TaskUpdatePayload`): version, subject, description,
status, assigned_to, tags, comment, in the model's declaration order
(`app/models/task.py` lines 79-89). -/
def model_dump_task (r : TaskUpdatePayload) (exclude_none : Bool) :
    List (String × FieldVal) :=
  [("version", FieldVal.nat r.version)]
    ++ dumpOpt "subject" (r.subject.map FieldVal.str) exclude_none
    ++ dumpOpt "description" (r.description.map FieldVal.str) exclude_none
    ++ dumpOpt "status" (r.status.map FieldVal.int) exclude_none
    ++ dumpOpt "assigned_to" (r.assigned_to.map FieldVal.int) exclude_none
    ++ dumpOpt "tags" (r.tags.map FieldVal.strList) exclude_none
    ++ dumpOpt "comment" (r.comment.map FieldVal.str) exclude_none

/-- Body submitted by `TaskService.update_task`:
`request.model_dump(exclude_none=True)` (`app/services/task_service.py`
lines 83-86). -/
def update_task_body (r : TaskUpdatePayload) : List (String × FieldVal) :=
  model_dump_task r true

/-- The `CreateTaskRequest` model (`app/models/task.py` lines 68-76). -/
structure CreateTaskRequestM where
  project : Int
  subject : String
  user_story : Option Int := Option.none
  description : Option String := Option.none
  status : Option Int := Option.none
  tags : Option (List String) := Option.none

/-- Pydantic `model_dump` of `CreateTaskRequest`, in declaration order. -/
def model_dump_create_task (r : CreateTaskRequestM) (exclude_none : Bool) :
    List (String × FieldVal) :=
  [("project", FieldVal.int r.project), ("subject", FieldVal.str r.subject)]
    ++ dumpOpt "user_story" (r.user_story.map FieldVal.int) exclude_none
    ++ dumpOpt "description" (r.description.map FieldVal.str) exclude_none
    ++ dumpOpt "status" (r.status.map FieldVal.int) exclude_none
    ++ dumpOpt "tags" (r.tags.map FieldVal.strList) exclude_none

/-- Body submitted by `TaskService.create_task`:
`request.model_dump(exclude_none=True)` (`app/services/task_service.py`
lines 66-69). -/
def create_task_body (r : CreateTaskRequestM) : List (String × FieldVal) :=
  model_dump_create_task r true

/-- C10: every body actually submitted by the task service contains no
explicit null — the submitted keys are exactly `version` plus the keys of
the non-`None` optional fields, in model order, so a field reconciled to
(or supplied as) `None` is silently dropped from the submitted body and a
null can never reach the backend through an update; the create body
likewise never carries a null. -/
theorem c10_exclude_none :
    (∀ r : TaskUpdatePayload,
      (update_task_body r).all (fun kv => !(kv.2 == FieldVal.null)) = true ∧
      (update_task_body r).map Prod.fst =
        ["version"]
          ++ (if r.subject.isSome then ["subject"] else [])
          ++ (if r.description.isSome then ["description"] else [])
          ++ (if r.status.isSome then ["status"] else [])
          ++ (if r.assigned_to.isSome then ["assigned_to"] else [])
          ++ (if r.tags.isSome then ["tags"] else [])
          ++ (if r.comment.isSome then ["comment"] else [])) ∧
    (∀ r : CreateTaskRequestM,
      (create_task_body r).all (fun kv => !(kv.2 == FieldVal.null)) = true) := by
  constructor
  · intro r
    obtain ⟨ver, sub, desc, tagsF, com, st, asg⟩ := r
    constructor
    · cases sub <;> cases desc <;> cases tagsF <;> cases com <;>
        cases st <;> cases asg <;>
        simp [update_task_body, model_dump_task, dumpOpt]
    · cases sub <;> cases desc <;> cases tagsF <;> cases com <;>
        cases st <;> cases asg <;>
        simp [update_task_body, model_dump_task, dumpOpt]
  · intro r
    obtain ⟨proj, sub, ustory, desc, st, tagsF⟩ := r
    cases ustory <;> cases desc <;> cases st <;> cases tagsF <;>
      simp [create_task_body, model_dump_create_task, dumpOpt]
